import Mathlib

/-!
Verification of the map screen in src/app/(tabs)/map.tsx.

The screen's state and handlers are shallowly embedded: component state is a
record, each handler and effect is a state transformer, and network activity
is made explicit as emitted request values (a nearby-search request carries
the coordinates, radius and effective keyword actually sent; a detail fetch is
identified by its place identifier).  React semantics are modelled as follows:
a state setter is an immediate field update, and an effect hook re-runs after
a handler exactly when one of its dependency values changed.  JavaScript
string operations (trim, split, join, the falsy-string test of the operator
that picks a fallback) are embedded by structurally recursive functions so
that every definition evaluates on concrete inputs.
-/

/-- Viewport region, as set by the location acquirer (lines 89-94).  No
arithmetic is ever performed on coordinates, so they are carried as integers. -/
structure Region where
  latitude : Int
  longitude : Int
  latitudeDelta : Int
  longitudeDelta : Int
  deriving DecidableEq

/-- Opening hours of the details response (line 15). -/
structure OpeningHours where
  open_now : Bool
  weekday_text : List String
  deriving DecidableEq

/-- One discovered place (lines 9-18). -/
structure RecyclingCenter where
  id : String
  name : String
  latitude : Int
  longitude : Int
  address : Option String
  openingHours : Option OpeningHours
  rating : Option Int
  description : Option String
  deriving DecidableEq

/-- One element of the nearby-search response array (consumed in lines
128-134).  A missing vicinity field is none; an empty string is a present but
empty field, which JavaScript also treats as falsy. -/
structure PlaceResult where
  place_id : String
  name : String
  lat : Int
  lng : Int
  vicinity : Option String
  deriving DecidableEq

/-- The details response (consumed in lines 158-176): opening hours, rating
and the review texts in response order. -/
structure PlaceDetails where
  opening_hours : Option OpeningHours
  rating : Option Int
  reviews : Option (List String)
  deriving DecidableEq

/-- JavaScript disjunction on strings: the empty string is falsy, so it picks
the fallback. -/
def jsOrString (s fallback : String) : String :=
  if s = "" then fallback else s

/-- JavaScript disjunction on a possibly missing string field: both a missing
field and an empty string are falsy. -/
def jsOrOptString (s : Option String) (fallback : String) : String :=
  match s with
  | some v => jsOrString v fallback
  | none => fallback

/-- The whitespace characters relevant to the trim of line 108. -/
def isJsSpace (c : Char) : Bool :=
  c == ' ' || c == '\t' || c == '\n' || c == '\r'

/-- JavaScript trim: drop leading and trailing whitespace. -/
def jsTrim (s : String) : String :=
  (((s.data.dropWhile isJsSpace).reverse.dropWhile isJsSpace).reverse).asString

/-- JavaScript split on a single separator character, on character lists:
always returns at least one (possibly empty) component, one more per
separator occurrence. -/
def splitOnChar (sep : Char) : List Char → List (List Char)
  | [] => [[]]
  | c :: rest =>
    match splitOnChar sep rest with
    | [] => if c == sep then [[], [c]] else [[c]]
    | w :: ws => if c == sep then [] :: w :: ws else (c :: w) :: ws

/-- JavaScript split of a string on a single space, as used on line 379. -/
def jsSplitSpace (s : String) : List String :=
  (splitOnChar ' ' s.data).map List.asString

/-- JavaScript join with a single space, as used on line 380. -/
def jsJoinSpace : List String → String
  | [] => ""
  | [w] => w
  | w :: ws => w ++ " " ++ jsJoinSpace ws

/-- Line 24: the default disjunctive query. -/
def defaultKeyword : String :=
  "recycling center|waste management|recyclable materials|recycle center"

/-- Lines 107-111: the effective query string a search sends, built from the
trimmed keyword, with the default query for an empty trimmed keyword. -/
def effectiveQuery (keyword : String) : String :=
  if jsTrim keyword = "" then defaultKeyword else jsTrim keyword ++ " recycling"

/-- The nearby-search HTTP request as issued on lines 116-126: location
coordinates, the fixed radius, and the effective keyword. -/
structure NearbyRequest where
  lat : Int
  lng : Int
  radius : Nat
  keyword : String
  deriving DecidableEq

/-- Lines 119-124: the request parameters for given coordinates and raw
keyword. -/
def mkNearbyRequest (lat lng : Int) (keyword : String) : NearbyRequest :=
  { lat := lat, lng := lng, radius := 80467, keyword := effectiveQuery keyword }

/-- Lines 128-134: one nearby-search result mapped to a center; the address
falls back to the placeholder when vicinity is falsy. -/
def placeToCenter (place : PlaceResult) : RecyclingCenter :=
  { id := place.place_id
    name := place.name
    latitude := place.lat
    longitude := place.lng
    address := some (jsOrOptString place.vicinity "Address not available")
    openingHours := none
    rating := none
    description := none }

/-- Lines 128-134: the whole response array mapped to the new center list. -/
def mapNearbyResults (results : List PlaceResult) : List RecyclingCenter :=
  results.map placeToCenter

/-- Lines 160-163: the first review text, with the placeholder when the
reviews array is missing or empty. -/
def topReview (reviews : Option (List String)) : String :=
  match reviews with
  | some (t :: _) => t
  | _ => "No reviews available."

/-- Lines 165-176: merge one details response into the center list, updating
the three detail fields of every center whose identifier matches. -/
def mergeDetails (placeId : String) (d : PlaceDetails) (centers : List RecyclingCenter) :
    List RecyclingCenter :=
  centers.map fun center =>
    if center.id = placeId then
      { center with
        openingHours := d.opening_hours
        rating := d.rating
        description := some (jsOrString (topReview d.reviews) "No reviews available.") }
    else center

/-- The whole component state (lines 30-47).  isInitialRender embeds the ref
of line 47, prevItemName the last-seen external keyword of line 43. -/
structure MapState where
  region : Option Region
  recyclingCenters : List RecyclingCenter
  selectedCenter : Option RecyclingCenter
  modalVisible : Bool
  filterModalVisible : Bool
  searchModalVisible : Bool
  searchKeyword : String
  currentSearchKeyword : String
  loading : Bool
  isExpanded : Bool
  prevItemName : String
  isInitialRender : Bool
  deriving DecidableEq

/-- The synchronous prefix of fetchRecyclingCenters (lines 104-126): set the
loading flag and issue the nearby-search request. -/
def fetchIssue (s : MapState) (lat lng : Int) (keyword : String) :
    MapState × NearbyRequest :=
  ({ s with loading := true }, mkNearbyRequest lat lng keyword)

/-- One observable step of the success continuation of fetchRecyclingCenters:
replacing the list (line 136), issuing one detail fetch (line 137), or
clearing the loading flag (line 141). -/
inductive FetchAction where
  | replaceList (centers : List RecyclingCenter)
  | issueDetails (placeId : String)
  | clearLoading
  deriving DecidableEq

/-- Lines 136-141 in program order: on success the list is replaced, then a
detail fetch is issued per new entry in list order, then loading clears. -/
def successActions (results : List PlaceResult) : List FetchAction :=
  FetchAction.replaceList (mapNearbyResults results) ::
    ((mapNearbyResults results).map fun center => FetchAction.issueDetails center.id) ++
      [FetchAction.clearLoading]

/-- The state change of each success-path action; issuing a detail fetch does
not itself change state. -/
def applyAction (s : MapState) : FetchAction → MapState
  | FetchAction.replaceList centers => { s with recyclingCenters := centers }
  | FetchAction.issueDetails _ => s
  | FetchAction.clearLoading => { s with loading := false }

/-- The state after the success path of fetchRecyclingCenters has run. -/
def successState (s : MapState) (results : List PlaceResult) : MapState :=
  (successActions results).foldl applyAction s

/-- Lines 138-142: on failure only the log runs and the finally block clears
the loading flag; the list is untouched. -/
def failureState (s : MapState) : MapState :=
  { s with loading := false }

/-- Lines 165-176 as a state transformer: a details response merged into the
current list. -/
def detailsSuccess (s : MapState) (placeId : String) (d : PlaceDetails) : MapState :=
  { s with recyclingCenters := mergeDetails placeId d s.recyclingCenters }

/-- Lines 219-225: the submit handler.  With a region set it commits the
draft keyword, directly issues a fetch with the draft keyword, and closes the
dialog; with no region it only closes the dialog. -/
def handleSearch (s : MapState) : MapState × List NearbyRequest :=
  match s.region with
  | some r =>
    let s1 := { s with currentSearchKeyword := s.searchKeyword }
    let p := fetchIssue s1 r.latitude r.longitude s.searchKeyword
    ({ p.1 with searchModalVisible := false }, [p.2])
  | none => ({ s with searchModalVisible := false }, [])

/-- Lines 205-209: the effect that re-fetches when region or the committed
keyword changed, guarded by a set region and a non-empty committed keyword. -/
def searchEffect (s : MapState) : MapState × List NearbyRequest :=
  match s.region with
  | some r =>
    if s.currentSearchKeyword = "" then (s, [])
    else
      let p := fetchIssue s r.latitude r.longitude s.currentSearchKeyword
      (p.1, [p.2])
  | none => (s, [])

/-- A full submit cycle: handleSearch runs, then the effect of lines 205-209
re-runs exactly when one of its dependency values (region, committed keyword)
changed during the handler.  The requests are collected in issue order. -/
def submitSearch (s : MapState) : MapState × List NearbyRequest :=
  let p := handleSearch s
  if p.1.region = s.region ∧ p.1.currentSearchKeyword = s.currentSearchKeyword then p
  else
    let q := searchEffect p.1
    (q.1, p.2 ++ q.2)

/-- Lines 228-235: reset all three keyword variants and, with a region set,
fetch immediately with the empty keyword. -/
def clearSearch (s : MapState) : MapState × List NearbyRequest :=
  let s1 := { s with searchKeyword := "", currentSearchKeyword := "", prevItemName := "" }
  match s1.region with
  | some r =>
    let p := fetchIssue s1 r.latitude r.longitude ""
    (p.1, [p.2])
  | none => (s1, [])

/-- Lines 238-243: close the search dialog, invoking clearSearch first only
when the draft keyword is exactly the empty string (no trimming). -/
def handleCloseSearchModal (s : MapState) : MapState × List NearbyRequest :=
  if s.searchKeyword = "" then
    let p := clearSearch s
    ({ p.1 with searchModalVisible := false }, p.2)
  else ({ s with searchModalVisible := false }, [])

/-- Lines 59-77: the navigation-keyword effect.  For a truthy (non-empty)
incoming keyword that differs from the last-seen one, or on the first render,
it propagates the keyword into draft, committed and last-seen, fetches if a
region is set, and clears the first-render flag. -/
def handleItemNameChange (itemName : String) (s : MapState) : MapState × List NearbyRequest :=
  if itemName ≠ "" ∧ (itemName ≠ s.prevItemName ∨ s.isInitialRender = true) then
    let s1 := { s with
      searchKeyword := itemName
      currentSearchKeyword := itemName
      prevItemName := itemName }
    match s1.region with
    | some r =>
      let p := fetchIssue s1 r.latitude r.longitude itemName
      ({ p.1 with isInitialRender := false }, [p.2])
    | none => ({ s1 with isInitialRender := false }, [])
  else (s, [])

/-- Lines 211-217: the second navigation-keyword effect, which propagates a
non-empty changed keyword into draft, committed and last-seen (no fetch). -/
def itemNameSync (itemName : String) (s : MapState) : MapState :=
  if itemName ≠ "" ∧ itemName ≠ s.prevItemName then
    { s with
      searchKeyword := itemName
      currentSearchKeyword := itemName
      prevItemName := itemName }
  else s

/-- Both effects that react to the navigation keyword, in declaration order
(lines 59-77 before lines 211-217). -/
def itemNameRenderEffects (itemName : String) (s : MapState) : MapState × List NearbyRequest :=
  let p := handleItemNameChange itemName s
  (itemNameSync itemName p.1, p.2)

/-- Lines 201-203: each tap negates the expanded flag. -/
def toggleDescription (isExpanded : Bool) : Bool :=
  !isExpanded

/-- Lines 377-381: the description text the detail modal renders.  Collapsed,
a truthy description of more than 20 space-separated words is cut to its
first 20 words plus an ellipsis; expanded, the description renders as is. -/
def renderedDescription (isExpanded : Bool) (description : Option String) : Option String :=
  if isExpanded then description
  else
    match description with
    | some d =>
      if 20 < (jsSplitSpace d).length then
        some (jsJoinSpace ((jsSplitSpace d).take 20) ++ "...")
      else some d
    | none => none

/-- Address as claim C5 words it: the vicinity whenever it is present, the
placeholder only when it is absent.  Stated from the claim for comparison
with placeToCenter, which uses the JavaScript falsy test instead. -/
def claimedAddress (vicinity : Option String) : String :=
  match vicinity with
  | some v => v
  | none => "Address not available"

/-- A concrete region for witnesses and counterexamples. -/
def exRegion : Region :=
  { latitude := 33, longitude := -97, latitudeDelta := 1, longitudeDelta := 1 }

/-- The component state right after mount (lines 30-47): nothing fetched,
loading, first render pending. -/
def baseState : MapState :=
  { region := none
    recyclingCenters := []
    selectedCenter := none
    modalVisible := false
    filterModalVisible := false
    searchModalVisible := false
    searchKeyword := ""
    currentSearchKeyword := ""
    loading := true
    isExpanded := false
    prevItemName := ""
    isInitialRender := true }

/-- Two concrete centers. -/
def exCenterA : RecyclingCenter :=
  { id := "a", name := "Alpha Depot", latitude := 1, longitude := 2,
    address := some "1 A St", openingHours := none, rating := none, description := none }

/-- Second concrete center. -/
def exCenterB : RecyclingCenter :=
  { id := "b", name := "Beta Yard", latitude := 3, longitude := 4,
    address := some "2 B St", openingHours := none, rating := none, description := none }

/-- A concrete center list. -/
def exCenters : List RecyclingCenter :=
  [exCenterA, exCenterB]

/-- A concrete details response. -/
def exDetails : PlaceDetails :=
  { opening_hours := some { open_now := true, weekday_text := ["Mon 9-5"] }
    rating := some 4
    reviews := some ["Great place"] }

/-- A concrete nearby-search result with a present but empty vicinity. -/
def exPlaceEmptyVicinity : PlaceResult :=
  { place_id := "p1", name := "Depot", lat := 3, lng := 4, vicinity := some "" }

/-- A concrete nearby-search result with a normal vicinity. -/
def exPlace1 : PlaceResult :=
  { place_id := "p1", name := "Depot", lat := 3, lng := 4, vicinity := some "12 Main St" }

/-- A state about to submit draft keyword glass over an empty committed
keyword, with a region set. -/
def submitStateC1 : MapState :=
  { baseState with
    region := some exRegion
    searchModalVisible := true
    searchKeyword := "glass"
    currentSearchKeyword := ""
    loading := false
    isInitialRender := false }

/-- A state whose last-seen external keyword is bottle. -/
def navStateC2 : MapState :=
  { baseState with
    searchKeyword := "bottle"
    currentSearchKeyword := "bottle"
    prevItemName := "bottle"
    loading := false
    isInitialRender := false }

/-- A state with a whitespace-only draft keyword and an open search dialog. -/
def whitespaceDraftState : MapState :=
  { baseState with
    region := some exRegion
    searchModalVisible := true
    searchKeyword := "   "
    currentSearchKeyword := "bottle"
    prevItemName := "bottle"
    recyclingCenters := [exCenterA, exCenterB]
    loading := false
    isInitialRender := false }

/-- A state with no region yet and a non-empty draft keyword. -/
def noRegionState : MapState :=
  { baseState with
    searchModalVisible := true
    searchKeyword := "glass"
    currentSearchKeyword := "bottle"
    recyclingCenters := [exCenterA]
    loading := false }

/-- A description of exactly 21 space-separated words. -/
def exLongDescription : String :=
  "w1 w2 w3 w4 w5 w6 w7 w8 w9 w10 w11 w12 w13 w14 w15 w16 w17 w18 w19 w20 w21"

/-- Folding the success-path state transformer over any run of detail-issue
actions changes nothing: issuing a detail fetch has no state effect. -/
theorem foldl_applyAction_issueDetails (centers : List RecyclingCenter) (s : MapState) :
    (centers.map fun center => FetchAction.issueDetails center.id).foldl applyAction s = s := by
  induction centers generalizing s with
  | nil => rfl
  | cons c l ih => simpa [applyAction] using ih s

/-- The success path of fetchRecyclingCenters replaces the list with the
mapped results, clears loading, and changes nothing else. -/
theorem successState_eq (s : MapState) (results : List PlaceResult) :
    successState s results =
      { s with recyclingCenters := mapNearbyResults results, loading := false } := by
  unfold successState successActions
  rw [List.cons_append, List.foldl_cons, List.foldl_append, foldl_applyAction_issueDetails]
  rfl

/-- Claim C4: for every keyword string, if the keyword trims to empty the
query sent to the nearby-search endpoint is the fixed default multi-term
string, and if it trims to a non-empty K the query sent is K followed by the
fixed suffix term. -/
theorem C4_effective_query (keyword : String) (lat lng : Int) :
    (jsTrim keyword = "" →
      (mkNearbyRequest lat lng keyword).keyword =
        "recycling center|waste management|recyclable materials|recycle center") ∧
    (jsTrim keyword ≠ "" →
      (mkNearbyRequest lat lng keyword).keyword = jsTrim keyword ++ " recycling") := by
  constructor
  · intro h
    simp [mkNearbyRequest, effectiveQuery, h, defaultKeyword]
  · intro h
    simp [mkNearbyRequest, effectiveQuery, h]

/-- Claim C4, witnessed at a whitespace-only keyword and at a padded keyword. -/
theorem C4_effective_query_witness :
    (mkNearbyRequest 33 (-97) "   ").keyword =
      "recycling center|waste management|recyclable materials|recycle center" ∧
    (mkNearbyRequest 33 (-97) " glass ").keyword = jsTrim " glass " ++ " recycling" :=
  ⟨(C4_effective_query "   " 33 (-97)).1 (by decide),
   (C4_effective_query " glass " 33 (-97)).2 (by decide)⟩

/-- Claim C8: a description of more than 20 space-separated words renders
collapsed as its first 20 words joined by single spaces plus an ellipsis,
renders expanded in full, and each toggle tap flips the expanded flag once. -/
theorem C8_truncation (d : String) (h : 20 < (jsSplitSpace d).length) :
    renderedDescription false (some d) =
      some (jsJoinSpace ((jsSplitSpace d).take 20) ++ "...") ∧
    renderedDescription true (some d) = some d ∧
    (∀ b : Bool, toggleDescription b = !b) := by
  refine ⟨?_, rfl, fun b => rfl⟩
  simp [renderedDescription, h]

/-- Claim C8, witnessed at a concrete 21-word description. -/
theorem C8_truncation_witness :
    renderedDescription false (some exLongDescription) =
      some (jsJoinSpace ((jsSplitSpace exLongDescription).take 20) ++ "...") :=
  (C8_truncation exLongDescription (by decide)).1

/-- Claim C6: every search sets loading at the start; loading is cleared when
the nearby-search call settles, on success (with only the detail fetches
issued, none completed) as well as on failure; on failure the center list is
unchanged; and a detail-fetch completion never changes the loading flag. -/
theorem C6_loading_discipline (s : MapState) (lat lng : Int) (keyword : String)
    (results : List PlaceResult) (placeId : String) (d : PlaceDetails) :
    (fetchIssue s lat lng keyword).1.loading = true ∧
    (successState s results).loading = false ∧
    (failureState s).loading = false ∧
    (failureState s).recyclingCenters = s.recyclingCenters ∧
    (detailsSuccess s placeId d).loading = s.loading := by
  refine ⟨rfl, ?_, rfl, rfl, rfl⟩
  rw [successState_eq]

/-- Claim C7: in the success path of a search, any prefix of the emitted
action sequence that already contains a detail-fetch issue also contains that
response's list replacement: no detail fetch of a search generation is issued
before that generation's list replacement. -/
theorem C7_replace_before_details (results : List PlaceResult) (n : Nat)
    (h : ∃ placeId, FetchAction.issueDetails placeId ∈ (successActions results).take n) :
    FetchAction.replaceList (mapNearbyResults results) ∈ (successActions results).take n := by
  obtain ⟨pid, hmem⟩ := h
  cases n with
  | zero => simp at hmem
  | succ m =>
    unfold successActions
    rw [List.cons_append, List.take_succ_cons]
    exact List.mem_cons_self _ _

/-- Claim C7, witnessed on a one-result response: the prefix of length two
contains the detail issue for p1, and indeed contains the replacement. -/
theorem C7_replace_before_details_witness :
    FetchAction.replaceList (mapNearbyResults [exPlace1]) ∈
      (successActions [exPlace1]).take 2 :=
  C7_replace_before_details [exPlace1] 2 ⟨"p1", by decide⟩

/-- Claim C1 counterexample: submitting draft keyword glass while the
committed keyword is empty and a region is set issues TWO search fetches (the
direct call of the submit handler plus the re-run of the committed-keyword
effect), not exactly one as the claim states. -/
theorem C1_counterexample :
    (submitSearch submitStateC1).2.length = 2 ∧
    ¬ (submitSearch submitStateC1).2.length = 1 := by decide

/-- Claim C1 as amended: submitting the search dialog with draft keyword D
while a region is set commits D, closes the dialog, and every issued fetch
uses the region's current coordinates and keyword D; exactly one fetch is
issued when D is empty or equals the previously committed keyword, and
exactly two identical fetches when D is non-empty and differs from it. -/
theorem C1_submit_amended (s : MapState) (r : Region) (h : s.region = some r) :
    (submitSearch s).1.currentSearchKeyword = s.searchKeyword ∧
    (submitSearch s).1.searchModalVisible = false ∧
    (∀ q ∈ (submitSearch s).2, q = mkNearbyRequest r.latitude r.longitude s.searchKeyword) ∧
    (submitSearch s).2.length =
      (if s.searchKeyword ≠ "" ∧ s.searchKeyword ≠ s.currentSearchKeyword then 2 else 1) := by
  by_cases hk : s.searchKeyword = s.currentSearchKeyword
  · simp [submitSearch, handleSearch, searchEffect, fetchIssue, h, hk]
  · by_cases he : s.searchKeyword = ""
    · simp [submitSearch, handleSearch, searchEffect, fetchIssue, h, hk, he]
    · simp [submitSearch, handleSearch, searchEffect, fetchIssue, h, hk, he]

/-- Claim C1 as amended, witnessed on the concrete submit state: the draft is
non-empty and differs from the committed keyword, so two fetches are issued. -/
theorem C1_submit_amended_witness :
    (submitSearch submitStateC1).2.length =
      (if submitStateC1.searchKeyword ≠ "" ∧
          submitStateC1.searchKeyword ≠ submitStateC1.currentSearchKeyword then 2 else 1) :=
  (C1_submit_amended submitStateC1 exRegion rfl).2.2.2

/-- Claim C2 counterexample: the incoming navigation keyword is empty and
differs from the last-seen keyword bottle, yet neither effect propagates it:
draft, committed and last-seen keyword all stay bottle. -/
theorem C2_counterexample :
    ("" : String) ≠ navStateC2.prevItemName ∧
    (itemNameRenderEffects "" navStateC2).1.searchKeyword ≠ "" ∧
    (itemNameRenderEffects "" navStateC2).1.currentSearchKeyword ≠ "" ∧
    (itemNameRenderEffects "" navStateC2).1.prevItemName ≠ "" := by decide

/-- Claim C2 as amended: every NON-EMPTY incoming navigation keyword that
differs from the last-seen external keyword (and also on the first render) is
propagated into both the draft and the committed keyword and recorded as the
last-seen external keyword. -/
theorem C2_sync_amended (itemName : String) (s : MapState)
    (h1 : itemName ≠ "")
    (h2 : itemName ≠ s.prevItemName ∨ s.isInitialRender = true) :
    (itemNameRenderEffects itemName s).1.searchKeyword = itemName ∧
    (itemNameRenderEffects itemName s).1.currentSearchKeyword = itemName ∧
    (itemNameRenderEffects itemName s).1.prevItemName = itemName := by
  unfold itemNameRenderEffects handleItemNameChange itemNameSync
  rw [if_pos ⟨h1, h2⟩]
  cases hr : s.region with
  | none => simp
  | some r => simp [fetchIssue]

/-- Claim C2 as amended, witnessed at keyword glass over last-seen bottle. -/
theorem C2_sync_amended_witness :
    (itemNameRenderEffects "glass" navStateC2).1.currentSearchKeyword = "glass" :=
  (C2_sync_amended "glass" navStateC2 (by decide) (Or.inl (by decide))).2.1

/-- Claim C3: a details response for an identifier absent from the list
leaves the list unchanged; for a present identifier the merge rewrites only
that entry's openingHours, rating and description, keeping its other fields,
every other entry, the length and the order intact. -/
theorem C3_detail_merge (centers : List RecyclingCenter) (placeId : String) (d : PlaceDetails) :
    ((∀ c ∈ centers, c.id ≠ placeId) → mergeDetails placeId d centers = centers) ∧
    (mergeDetails placeId d centers).length = centers.length ∧
    (∀ i : Nat, ∀ h1 : i < centers.length, ∀ h2 : i < (mergeDetails placeId d centers).length,
      ((centers.get ⟨i, h1⟩).id ≠ placeId →
        (mergeDetails placeId d centers).get ⟨i, h2⟩ = centers.get ⟨i, h1⟩) ∧
      ((centers.get ⟨i, h1⟩).id = placeId →
        (mergeDetails placeId d centers).get ⟨i, h2⟩ =
          { centers.get ⟨i, h1⟩ with
            openingHours := d.opening_hours
            rating := d.rating
            description := some (jsOrString (topReview d.reviews) "No reviews available.") })) := by
  refine ⟨?_, by simp [mergeDetails], ?_⟩
  · intro hall
    unfold mergeDetails
    induction centers with
    | nil => rfl
    | cons c l ih =>
      have hc : c.id ≠ placeId := hall c (List.mem_cons_self c l)
      simp only [List.map_cons, if_neg hc, List.cons.injEq, true_and]
      exact ih fun x hx => hall x (List.mem_cons_of_mem c hx)
  · intro i h1 h2
    have hget : (mergeDetails placeId d centers).get ⟨i, h2⟩ =
        (if (centers.get ⟨i, h1⟩).id = placeId then
          { centers.get ⟨i, h1⟩ with
            openingHours := d.opening_hours
            rating := d.rating
            description := some (jsOrString (topReview d.reviews) "No reviews available.") }
        else centers.get ⟨i, h1⟩) := by
      simp [mergeDetails, List.get_eq_getElem, List.getElem_map]
    constructor
    · intro hne
      rw [hget, if_neg hne]
    · intro heq
      rw [hget, if_pos heq]

/-- Claim C3, witnessed at an identifier absent from a concrete two-entry
list: the merge is a no-op. -/
theorem C3_detail_merge_witness :
    mergeDetails "zzz" exDetails exCenters = exCenters :=
  (C3_detail_merge exCenters "zzz" exDetails).1 (by decide)

/-- Claim C5 counterexample: a result with a present but empty vicinity maps
to the placeholder address, while the claim as stated requires the address to
equal the vicinity whenever it is present. -/
theorem C5_counterexample :
    (mapNearbyResults [exPlaceEmptyVicinity]).map RecyclingCenter.address ≠
      [some (claimedAddress exPlaceEmptyVicinity.vicinity)] := by decide

/-- Claim C5 as amended: a successful response with N results yields exactly
N entries whose identifiers are the response's place identifiers in response
order, each with the result's name and coordinates, and with address equal to
the vicinity when it is present and non-empty, and to the placeholder when
the vicinity is absent or empty. -/
theorem C5_mapping_amended (results : List PlaceResult) :
    (mapNearbyResults results).length = results.length ∧
    (mapNearbyResults results).map RecyclingCenter.id = results.map PlaceResult.place_id ∧
    (∀ i : Nat, ∀ h1 : i < results.length, ∀ h2 : i < (mapNearbyResults results).length,
      ((mapNearbyResults results).get ⟨i, h2⟩).name = (results.get ⟨i, h1⟩).name ∧
      ((mapNearbyResults results).get ⟨i, h2⟩).latitude = (results.get ⟨i, h1⟩).lat ∧
      ((mapNearbyResults results).get ⟨i, h2⟩).longitude = (results.get ⟨i, h1⟩).lng ∧
      ((results.get ⟨i, h1⟩).vicinity = none →
        ((mapNearbyResults results).get ⟨i, h2⟩).address = some "Address not available") ∧
      (∀ v : String, (results.get ⟨i, h1⟩).vicinity = some v →
        ((mapNearbyResults results).get ⟨i, h2⟩).address =
          some (if v = "" then "Address not available" else v))) := by
  refine ⟨by simp [mapNearbyResults], ?_, ?_⟩
  · simp [mapNearbyResults, List.map_map, Function.comp, placeToCenter]
  · intro i h1 h2
    have hget : (mapNearbyResults results).get ⟨i, h2⟩ = placeToCenter (results.get ⟨i, h1⟩) := by
      simp [mapNearbyResults, List.get_eq_getElem, List.getElem_map]
    rw [hget]
    refine ⟨rfl, rfl, rfl, ?_, ?_⟩
    · intro hv
      show some (jsOrOptString (results.get ⟨i, h1⟩).vicinity "Address not available") =
        some "Address not available"
      rw [hv]
      rfl
    · intro v hv
      show some (jsOrOptString (results.get ⟨i, h1⟩).vicinity "Address not available") =
        some (if v = "" then "Address not available" else v)
      rw [hv]
      rfl

/-- Claim C5 as amended, witnessed on a concrete two-result response: the
identifiers come out in response order. -/
theorem C5_mapping_amended_witness :
    (mapNearbyResults [exPlace1, exPlaceEmptyVicinity]).map RecyclingCenter.id =
      [exPlace1, exPlaceEmptyVicinity].map PlaceResult.place_id :=
  (C5_mapping_amended [exPlace1, exPlaceEmptyVicinity]).2.1

/-- Claim C9: closing the search dialog compares the draft keyword to the
empty string without trimming, so a whitespace-only draft does not invoke the
clear path: draft, committed and last-seen keyword, and the center list are
unchanged, no fetch is issued, and only the dialog-visibility flag changes. -/
theorem C9_close_guard (s : MapState) (h : s.searchKeyword ≠ "") :
    handleCloseSearchModal s = ({ s with searchModalVisible := false }, []) ∧
    (handleCloseSearchModal s).1.searchKeyword = s.searchKeyword ∧
    (handleCloseSearchModal s).1.currentSearchKeyword = s.currentSearchKeyword ∧
    (handleCloseSearchModal s).1.prevItemName = s.prevItemName ∧
    (handleCloseSearchModal s).1.recyclingCenters = s.recyclingCenters ∧
    (handleCloseSearchModal s).2 = [] := by
  have he : handleCloseSearchModal s = ({ s with searchModalVisible := false }, []) := by
    simp [handleCloseSearchModal, h]
  refine ⟨he, ?_, ?_, ?_, ?_, ?_⟩ <;> rw [he]

/-- Claim C9, witnessed at a whitespace-only draft keyword over a populated
state: only the dialog flag changes and no request is issued. -/
theorem C9_close_guard_witness :
    handleCloseSearchModal whitespaceDraftState =
      ({ whitespaceDraftState with searchModalVisible := false }, []) :=
  (C9_close_guard whitespaceDraftState (by decide)).1

/-- Claim C10: with no region set, submitting the search dialog closes the
dialog but does not commit the draft keyword and issues no fetch; the
committed keyword, the center list and the loading flag are unchanged. -/
theorem C10_no_region (s : MapState) (h : s.region = none) :
    handleSearch s = ({ s with searchModalVisible := false }, []) ∧
    submitSearch s = ({ s with searchModalVisible := false }, []) ∧
    (submitSearch s).1.currentSearchKeyword = s.currentSearchKeyword ∧
    (submitSearch s).1.recyclingCenters = s.recyclingCenters ∧
    (submitSearch s).1.loading = s.loading := by
  have hh : handleSearch s = ({ s with searchModalVisible := false }, []) := by
    simp [handleSearch, h]
  have hs : submitSearch s = ({ s with searchModalVisible := false }, []) := by
    simp [submitSearch, hh]
  refine ⟨hh, hs, ?_, ?_, ?_⟩ <;> rw [hs]

/-- Claim C10, witnessed on a concrete region-less state with a non-empty
draft keyword. -/
theorem C10_no_region_witness :
    submitSearch noRegionState = ({ noRegionState with searchModalVisible := false }, []) :=
  (C10_no_region noRegionState rfl).2.1
